import Mathlib

/-!
Verification of the EcomOps database-operations agent core (src/server.py).

Shallow embedding conventions:
  * A database table is a Lean list of row structures; a SQL query over it is
    a filter, sort and take over that list, translated clause by clause.
  * Timestamps are epoch seconds as naturals; the SQL NOW and CURRENT_DATE
    clock readings are explicit parameters (now, today).
  * Row sets fetched from PostgreSQL internals (pg_stat_activity,
    pg_stat_statements, pg_statio_user_tables) are taken as inputs at the
    query boundary.
  * A string result built by str(...) over fetched rows is modelled by pyStr
    over the rows pre-rendered as their repr strings.
  * A Python function that can let an exception escape is modelled with
    result type Except String α: the error side is an exception escaping the
    tool boundary, the ok side the value actually returned.
  * Python numeric semantics are kept: psycopg2 returns decimal.Decimal for
    SQL numeric values (such as AVG over bigint), and a Decimal multiplied by
    a float literal raises TypeError; round on Decimal is half-even.
-/

namespace EcomOps

/-- Rendering of a fetched row list by Python str: each row stands for its
repr string, the list is bracketed and comma separated; the empty result set
renders as the two-character string of an empty list. -/
def pyStr (rows : List String) : String :=
  "[" ++ String.intercalate ", " rows ++ "]"

/-- Python round to the nearest integer, ties to even (the rounding used by
round on int and Decimal values). -/
def pyRound (q : ℚ) : ℤ :=
  if q - ⌊q⌋ < 1/2 then ⌊q⌋
  else if q - ⌊q⌋ > 1/2 then ⌊q⌋ + 1
  else if ⌊q⌋ % 2 = 0 then ⌊q⌋ else ⌊q⌋ + 1

/-- Python round(x, 1) on an exact decimal value. -/
def pyRound1 (q : ℚ) : ℚ := (pyRound (q * 10) : ℚ) / 10

/-- Python round(x, 2) on an exact decimal value. -/
def pyRound2 (q : ℚ) : ℚ := (pyRound (q * 100) : ℚ) / 100

/-- Two-digit zero-padded rendering used by strftime fields. -/
def pad2 (n : Nat) : String :=
  if n < 10 then "0" ++ toString n else toString n

/-- strftime of the fixed pattern for hours and minutes of an epoch-seconds
timestamp. -/
def timeHM (ts : Nat) : String :=
  pad2 (ts / 3600 % 24) ++ ":" ++ pad2 (ts / 60 % 60)

/-- Contiguous-sublist test on character lists. -/
def isSubChars (ps : List Char) : List Char → Bool
  | [] => ps.isEmpty
  | c :: rest => ps.isPrefixOf (c :: rest) || isSubChars ps rest

/-- Case-insensitive containment test, the meaning of the SQL clause
ILIKE with a pattern wrapped in percent wildcards on both sides. -/
def ilikeContains (s pat : String) : Bool :=
  isSubChars pat.toLower.data s.toLower.data

/-- Containment test for the LIKE clause with percent wildcards on both
sides; the single-character wildcard of LIKE is abstracted as a literal,
which is exact for every pattern appearing in the source. -/
def likeContains (s pat : String) : Bool :=
  isSubChars pat.data s.data

/-- Insertion sort, descending in the given key: the embedding of the SQL
clause ORDER BY key DESC. -/
def sortDescBy {α : Type} {β : Type} [LinearOrder β] (key : α → β) : List α → List α
  | [] => []
  | x :: xs => insertDesc key x (sortDescBy key xs)
where
  insertDesc (key : α → β) (x : α) : List α → List α
    | [] => [x]
    | y :: ys => if key y ≤ key x then x :: y :: ys else y :: insertDesc key x ys

theorem mem_insertDesc {α β : Type} [LinearOrder β] (key : α → β) (x a : α)
    (l : List α) : a ∈ sortDescBy.insertDesc key x l ↔ a = x ∨ a ∈ l := by
  induction l with
  | nil => simp [sortDescBy.insertDesc]
  | cons y ys ih =>
      by_cases h : key y ≤ key x
      · simp [sortDescBy.insertDesc, h]
      · simp [sortDescBy.insertDesc, h, ih]
        tauto

theorem mem_sortDescBy {α β : Type} [LinearOrder β] (key : α → β) (a : α)
    (l : List α) : a ∈ sortDescBy key l ↔ a ∈ l := by
  induction l with
  | nil => simp [sortDescBy]
  | cons x xs ih => simp [sortDescBy, mem_insertDesc, ih]

/-- One row of the staff_activity_trace table. -/
structure StaffAction where
  manager_id : String
  staff_id : String
  staff_name : String
  staff_role : String
  action_type : String
  table_affected : String
  details : String
  action_timestamp : Nat
  deriving DecidableEq, Repr

/-- One row of the global_activity_feed view. -/
structure FeedRow where
  manager_id : String
  activity_type : String
  compliance_check : Bool
  created_at : Nat
  deriving DecidableEq, Repr

/-- One row of the global_audit_trace table. -/
structure TraceRow where
  manager_id : String
  category : String
  reference_id : String
  action : String
  details : String
  timestamp : Nat
  deriving DecidableEq, Repr

/-- One row of the system_audit_logs table. -/
structure AuditLog where
  manager_id : String
  table_affected : String
  action_type : String
  old_data : String
  new_data : String
  staff_name : String
  action_timestamp : Nat
  deriving DecidableEq, Repr

/-- One row of the system_error_logs table. -/
structure ErrorLog where
  manager_id : String
  error_code : String
  error_message : String
  failed_query : Option String
  timestamp : Nat
  deriving DecidableEq, Repr

/-- One row of pg_stat_activity, restricted to the selected columns plus
the database name used by the WHERE clause. -/
structure PgStatRow where
  pid : Nat
  usename : String
  state : Option String
  query : String
  backend_start : Nat
  client_addr : Option String
  datname : String
  deriving DecidableEq, Repr

/-- One row of pg_stat_statements, restricted to the selected columns. -/
structure StatStmt where
  query : String
  calls : Nat
  total_exec_time : ℚ
  mean_exec_time : ℚ
  rows : Nat
  deriving DecidableEq, Repr

/-- One fetched row of the growth-trends query over
pg_statio_user_tables: table name, size already rounded to megabytes with
two decimals by the SQL round, and the reltuples estimate.  The input list
is the fetched result set, in the order produced by the ORDER BY clause. -/
structure SizeRow where
  relname : String
  size_mb : ℚ
  row_count : Nat
  deriving DecidableEq, Repr

/-- One row of the products table. -/
structure Product where
  id : Nat
  name : String
  price : Int
  stock : Int
  deriving DecidableEq, Repr

/-! ## get_activity_summary -/

/-- Result of get_activity_summary: either the no-activity sentinel string or
the JSON payload, with the summary rows kept structurally as
(activity_type, total_events, compliance_flags). -/
inductive ActivityOut
  | noActivity (msg : String)
  | payload (manager_id timeframe : String) (summary : List (String × Nat × Nat))
      (total_actions_today : Nat)
  deriving DecidableEq, Repr

/-- Rows of global_activity_feed selected by the WHERE clause of
get_activity_summary: manager_id equal to the parameter and created_at on or
after CURRENT_DATE (the parameter today, midnight in epoch seconds). -/
def activityRows (feed : List FeedRow) (mid : String) (today : Nat) : List FeedRow :=
  feed.filter fun r => decide (r.manager_id = mid ∧ r.created_at ≥ today)

/-- The GROUP BY activity_type result rows of get_activity_summary:
per activity type, the row count and the count of rows failing the
compliance check. -/
def activityGroups (feed : List FeedRow) (mid : String) (today : Nat) :
    List (String × Nat × Nat) :=
  let sel := activityRows feed mid today
  ((sel.map fun r => r.activity_type).dedup).map fun t =>
    (t, (sel.filter fun r => decide (r.activity_type = t)).length,
        (sel.filter fun r => decide (r.activity_type = t ∧ r.compliance_check = false)).length)

/-- Embedding of get_activity_summary from src/server.py. -/
def get_activity_summary (feed : List FeedRow) (mid timeframe : String)
    (today : Nat) : ActivityOut :=
  let rows := activityGroups feed mid today
  if rows = [] then .noActivity ("No activity recorded today for Manager ID: " ++ mid)
  else .payload mid timeframe rows ((rows.map fun x => x.2.1).sum)

/-! ## get_recent_activity -/

/-- Result of get_recent_activity: the no-records sentinel or the JSON
payload; the per-row rendering into a dict of strings is kept structurally
as the row itself. -/
inductive RecentOut
  | noRecords (msg : String)
  | payload (manager_id : String) (record_count : Nat) (activities : List TraceRow)
  deriving DecidableEq, Repr

/-- The optional category filter of get_recent_activity: Python appends the
clause only when the argument is truthy, so None and the empty string both
disable it; the comparison value is upper-cased. -/
def categoryMatches (category : Option String) (rowCategory : String) : Bool :=
  match category with
  | none => true
  | some c => c == "" || rowCategory == c.toUpper

/-- Rows of global_audit_trace selected by the WHERE clause of
get_recent_activity. -/
def recentRows (trace : List TraceRow) (mid : String) (category : Option String) :
    List TraceRow :=
  trace.filter fun r => decide (r.manager_id = mid) && categoryMatches category r.category

/-- The fetched result set of get_recent_activity: the selected rows ordered
newest first and limited. -/
def recentFetched (trace : List TraceRow) (mid : String) (lim : Nat)
    (category : Option String) : List TraceRow :=
  (sortDescBy (fun r => r.timestamp) (recentRows trace mid category)).take lim

/-- Embedding of get_recent_activity from src/server.py. -/
def get_recent_activity (trace : List TraceRow) (mid : String) (lim : Nat)
    (category : Option String) : RecentOut :=
  let rows := recentFetched trace mid lim category
  if rows = [] then .noRecords ("No recent activity found for Manager " ++ mid ++ ".")
  else .payload mid rows.length rows

/-! ## get_user_activity -/

/-- Result of get_user_activity. -/
inductive UserActivityOut
  | noRecords (msg : String)
  | payload (target_user summary : String) (logs : List StaffAction)
  deriving DecidableEq, Repr

/-- Rows of staff_activity_trace selected by the WHERE clause of
get_user_activity: the manager filter, the fuzzy name or exact id match
(ILIKE with percent wildcards around the identifier), and the trailing
days_back window from CURRENT_DATE. -/
def userActivityRows (trace : List StaffAction) (mid staff : String)
    (days_back today : Nat) : List StaffAction :=
  trace.filter fun r => decide (r.manager_id = mid) &&
    (ilikeContains r.staff_name staff || r.staff_id == staff) &&
    decide (r.action_timestamp ≥ today - days_back * 86400)

/-- The fetched result set of get_user_activity, newest first. -/
def userActivityFetched (trace : List StaffAction) (mid staff : String)
    (days_back today : Nat) : List StaffAction :=
  sortDescBy (fun r => r.action_timestamp) (userActivityRows trace mid staff days_back today)

/-- Embedding of get_user_activity from src/server.py. -/
def get_user_activity (trace : List StaffAction) (mid staff : String)
    (days_back today : Nat) : UserActivityOut :=
  let rows := userActivityFetched trace mid staff days_back today
  if rows = [] then
    .noRecords ("No activity records found for \x27" ++ staff ++ "\x27 in the last " ++
      toString days_back ++ " days.")
  else .payload staff ("Found " ++ toString rows.length ++ " actions") rows

/-! ## get_data_modifications -/

/-- Result of get_data_modifications. -/
inductive DataModOut
  | noRecords (msg : String)
  | payload (results : List AuditLog)
  deriving DecidableEq, Repr

/-- An optional equality filter appended only when the argument is truthy
(neither None nor the empty string), comparing against the normalized
argument. -/
def optEqFilter (opt : Option String) (normalize : String → String)
    (field : String) : Bool :=
  match opt with
  | none => true
  | some v => v == "" || field == normalize v

/-- Rows of system_audit_logs selected by the WHERE clause of
get_data_modifications: the manager filter plus the optional lower-cased
table and upper-cased action filters. -/
def dataModRows (logs : List AuditLog) (mid : String)
    (table_name action_type : Option String) : List AuditLog :=
  logs.filter fun r => decide (r.manager_id = mid) &&
    optEqFilter table_name String.toLower r.table_affected &&
    optEqFilter action_type String.toUpper r.action_type

/-- The fetched result set of get_data_modifications, newest first, limited. -/
def dataModFetched (logs : List AuditLog) (mid : String)
    (table_name action_type : Option String) (lim : Nat) : List AuditLog :=
  (sortDescBy (fun r => r.action_timestamp) (dataModRows logs mid table_name action_type)).take lim

/-- Embedding of get_data_modifications from src/server.py. -/
def get_data_modifications (logs : List AuditLog) (mid : String)
    (table_name action_type : Option String) (lim : Nat) : DataModOut :=
  let rows := dataModFetched logs mid table_name action_type lim
  if rows = [] then .noRecords "No matching data modifications found."
  else .payload rows

/-! ## get_active_connections -/

/-- Result of get_active_connections; the payload keeps the state census and
the selected sessions. -/
inductive ConnOut
  | noConnections (msg : String)
  | payload (active idle other total : Nat) (details : List PgStatRow)
  deriving DecidableEq, Repr

/-- Rows of pg_stat_activity selected by get_active_connections: sessions of
the current database with a non-null state.  The manager_id parameter of the
tool is unused; scoping is by database name. -/
def activeConnRows (stats : List PgStatRow) (dbname : String) : List PgStatRow :=
  stats.filter fun r => decide (r.datname = dbname) && r.state.isSome

/-- Embedding of get_active_connections from src/server.py. -/
def get_active_connections (stats : List PgStatRow) (dbname : String) : ConnOut :=
  let rows := activeConnRows stats dbname
  if rows = [] then .noConnections "No active connections detected (highly unusual)."
  else
    .payload (rows.filter fun r => decide (r.state = some "active")).length
      (rows.filter fun r => decide (r.state = some "idle")).length
      (rows.filter fun r => decide (r.state ≠ some "active" ∧ r.state ≠ some "idle")).length
      rows.length rows

/-! ## get_slow_queries -/

/-- Result of get_slow_queries. -/
inductive SlowOut
  | noData (msg : String)
  | payload (top_bottlenecks : List StatStmt)
  deriving DecidableEq, Repr

/-- Rows of pg_stat_statements selected by get_slow_queries: statements not
matching the LIKE pattern that excludes the monitoring view itself. -/
def slowQueryRows (stmts : List StatStmt) : List StatStmt :=
  stmts.filter fun s => !(likeContains s.query "pg_stat")

/-- The fetched result set of get_slow_queries: ordered by cumulative
execution time descending, limited. -/
def slowQueryFetched (stmts : List StatStmt) (lim : Nat) : List StatStmt :=
  (sortDescBy (fun s => s.total_exec_time) (slowQueryRows stmts)).take lim

/-- Embedding of get_slow_queries from src/server.py. -/
def get_slow_queries (stmts : List StatStmt) (lim : Nat) : SlowOut :=
  let rows := slowQueryFetched stmts lim
  if rows = [] then .noData "No performance data available. (Ensure pg_stat_statements is enabled)"
  else .payload rows

/-! ## get_failed_operations -/

/-- Result of get_failed_operations. -/
inductive FailedOut
  | noRecords (msg : String)
  | payload (failures : List ErrorLog)
  deriving DecidableEq, Repr

/-- Rows of system_error_logs selected by get_failed_operations. -/
def failedOpRows (logs : List ErrorLog) (mid : String) : List ErrorLog :=
  logs.filter fun r => decide (r.manager_id = mid)

/-- The fetched result set of get_failed_operations, newest first, limited. -/
def failedOpFetched (logs : List ErrorLog) (mid : String) (lim : Nat) : List ErrorLog :=
  (sortDescBy (fun r => r.timestamp) (failedOpRows logs mid)).take lim

/-- Embedding of get_failed_operations from src/server.py. -/
def get_failed_operations (logs : List ErrorLog) (mid : String) (lim : Nat) : FailedOut :=
  let rows := failedOpFetched logs mid lim
  if rows = [] then .noRecords "Good news: No failed operations recorded recently."
  else .payload rows

/-! ## get_privileged_activity -/

/-- Result of get_privileged_activity. -/
inductive PrivOut
  | noRecords (msg : String)
  | report (audit_scope alert_level : String) (privileged_actions : List StaffAction)
  deriving DecidableEq, Repr

/-- Rows of staff_activity_trace selected by the WHERE clause of
get_privileged_activity: the manager filter, the Admin role or
schema-mutating action disjunction, and the trailing timeframe_days window
from CURRENT_DATE. -/
def privilegedRows (trace : List StaffAction) (mid : String)
    (timeframe_days today : Nat) : List StaffAction :=
  trace.filter fun r => decide (r.manager_id = mid ∧
    (r.staff_role = "Admin" ∨ r.action_type ∈ ["GRANT", "REVOKE", "ALTER", "DROP"]) ∧
    r.action_timestamp ≥ today - timeframe_days * 86400)

/-- The fetched result set of get_privileged_activity, newest first. -/
def privilegedFetched (trace : List StaffAction) (mid : String)
    (timeframe_days today : Nat) : List StaffAction :=
  sortDescBy (fun r => r.action_timestamp) (privilegedRows trace mid timeframe_days today)

/-- Embedding of get_privileged_activity from src/server.py. -/
def get_privileged_activity (trace : List StaffAction) (mid : String)
    (timeframe_days today : Nat) : PrivOut :=
  let rows := privilegedFetched trace mid timeframe_days today
  if rows = [] then
    .noRecords ("No privileged activities detected in the last " ++
      toString timeframe_days ++ " days.")
  else
    .report (toString timeframe_days ++ " Days")
      (if rows.length > 5 then "High" else "Normal") rows

/-! ## detect_anomalous_activity

The volume detector first fetches AVG(cnt) over the per-day counts of the
trailing week.  psycopg2 delivers a SQL numeric as a decimal.Decimal, and
the Python expression avg_daily or 0 turns the NULL of an empty group set
into the int 0, so avg_daily is either the int 0 or a Decimal.  The Python
loop condition count > (avg_daily * 0.5) multiplies avg_daily by a float
literal; Decimal arithmetic with float operands raises TypeError, which the
enclosing handler turns into the Anomaly Detection Error string.  The exact
numeric average is modelled as a rational. -/

/-- An entry of the anomalies list built by detect_anomalous_activity. -/
structure Alert where
  type : String
  severity : String
  details : String
  deriving DecidableEq, Repr

/-- Result of detect_anomalous_activity: the caught-exception error string
or the JSON report. -/
inductive AnomalyOut
  | errorText (msg : String)
  | report (anomalies_found : Nat) (alerts : List Alert)
  deriving DecidableEq, Repr

/-- The Python value bound to avg_daily: the int 0 from a NULL average, or
the Decimal carrying the numeric average. -/
inductive AvgDaily
  | intZero
  | dec (q : ℚ)
  deriving DecidableEq, Repr

/-- The rational carried by an avg_daily value. -/
def AvgDaily.val : AvgDaily → ℚ
  | .intZero => 0
  | .dec q => q

/-- A Volume Spike alert entry, with the hourly count and the half-even
rounded daily average embedded in the message. -/
def volumeAlert (name : String) (count : Nat) (avg : ℚ) : Alert :=
  { type := "Volume Spike", severity := "High",
    details := "User " ++ name ++ " performed " ++ toString count ++
      " actions in 60 mins (Avg daily: " ++ toString (pyRound avg) ++ ")" }

/-- One evaluation of the loop condition count > (avg_daily * 0.5) and
avg_daily > 0.  With avg_daily the int 0, the arithmetic is int and float
and the second conjunct is false, so the condition is false.  With avg_daily
a Decimal, evaluating avg_daily * 0.5 raises TypeError before any
comparison. -/
def volumeCheck : AvgDaily → Nat → Except String Bool
  | .intZero, _count => .ok false
  | .dec _, _count =>
      .error "unsupported operand type(s) for *: \x27decimal.Decimal\x27 and \x27float\x27"

/-- The per-actor volume loop of detect_anomalous_activity over the fetched
(count, staff_name) pairs of the trailing hour. -/
def volumeLoop (avg : AvgDaily) : List (Nat × String) → Except String (List Alert)
  | [] => .ok []
  | (count, name) :: rest => do
      let flagged ← volumeCheck avg count
      let tail ← volumeLoop avg rest
      .ok ((if flagged then [volumeAlert name count avg.val] else []) ++ tail)

/-- A Suspicious Timing alert entry for one after-hours action row. -/
def timingAlert (r : StaffAction) : Alert :=
  { type := "Suspicious Timing", severity := "Medium",
    details := r.staff_name ++ " performed " ++ r.action_type ++ " at " ++
      timeHM r.action_timestamp ++ " (After-hours)" }

/-- Rows of staff_activity_trace in the trailing 7 days for the manager,
the population of the daily_stats groups. -/
def detectRows7 (trace : List StaffAction) (mid : String) (now : Nat) :
    List StaffAction :=
  trace.filter fun r => decide (r.manager_id = mid ∧ r.action_timestamp > now - 7 * 86400)

/-- Rows of staff_activity_trace in the trailing hour for the manager, the
population grouped by staff_name into recent_stats. -/
def detectRows1h (trace : List StaffAction) (mid : String) (now : Nat) :
    List StaffAction :=
  trace.filter fun r => decide (r.manager_id = mid ∧ r.action_timestamp > now - 3600)

/-- Rows of staff_activity_trace selected by the timing query: the manager
filter, hour of day between 0 and 5 inclusive, and the trailing 24 hours. -/
def detectLate (trace : List StaffAction) (mid : String) (now : Nat) :
    List StaffAction :=
  trace.filter fun r => decide (r.manager_id = mid ∧
    (0 ≤ r.action_timestamp / 3600 % 24 ∧ r.action_timestamp / 3600 % 24 ≤ 5) ∧
    r.action_timestamp > now - 86400)

/-- The counts of the daily_stats groups: per calendar day with activity in
the trailing week, the number of rows of that day. -/
def dailyCounts (trace : List StaffAction) (mid : String) (now : Nat) : List Nat :=
  let rows7 := detectRows7 trace mid now
  ((rows7.map fun r => r.action_timestamp / 86400).dedup).map fun d =>
    (rows7.filter fun r => decide (r.action_timestamp / 86400 = d)).length

/-- The Python avg_daily value: int 0 when the group set is empty (SQL AVG
returned NULL), otherwise the Decimal average of the group counts. -/
def avgDaily (trace : List StaffAction) (mid : String) (now : Nat) : AvgDaily :=
  let counts := dailyCounts trace mid now
  if counts = [] then .intZero
  else .dec ((counts.map fun n => (n : ℚ)).sum / (counts.length : ℚ))

/-- The fetched recent_stats pairs: per staff name with activity in the
trailing hour, the count of that name in the window. -/
def recentStats (trace : List StaffAction) (mid : String) (now : Nat) :
    List (Nat × String) :=
  let rows1h := detectRows1h trace mid now
  ((rows1h.map fun r => r.staff_name).dedup).map fun n =>
    ((rows1h.filter fun r => decide (r.staff_name = n)).length, n)

/-- Embedding of detect_anomalous_activity from src/server.py. -/
def detect_anomalous_activity (trace : List StaffAction) (mid : String)
    (now : Nat) : AnomalyOut :=
  match volumeLoop (avgDaily trace mid now) (recentStats trace mid now) with
  | .error msg => .errorText ("Anomaly Detection Error: " ++ msg)
  | .ok vol =>
      let alerts := vol ++ (detectLate trace mid now).map timingAlert
      .report alerts.length alerts

/-! ## get_growth_trends -/

/-- The storage_limit_utilization field: a rounded percentage of the fixed
500 MB constant, or the near-limit warning string. -/
inductive Utilization
  | percent (value : ℚ)
  | warnNearLimit
  deriving DecidableEq, Repr

/-- Result of get_growth_trends. -/
inductive GrowthOut
  | noData (msg : String)
  | report (total_size_mb : ℚ) (storage_limit_utilization : Utilization)
      (tables : List SizeRow)
  deriving DecidableEq, Repr

/-- Embedding of get_growth_trends from src/server.py, over the fetched
result set of its size query. -/
def get_growth_trends (rows : List SizeRow) : GrowthOut :=
  if rows = [] then .noData "No table data found."
  else
    let total := (rows.map fun r => r.size_mb).sum
    .report (pyRound2 total)
      (if total < 500 then .percent (pyRound1 (total / 500 * 100)) else .warnNearLimit)
      rows

/-! ## inspect_schema, track_activity, execute_sql, clone_product_by_name

These four tools assign the connection inside their try block.  In
inspect_schema and track_activity the finally clause runs conn.close()
unconditionally: when the connection attempt itself raised, the local conn
was never bound, so the finally clause raises UnboundLocalError, which
replaces the pending return of the except clause and escapes the function.
execute_sql instead guards the close with a locals() check, so nothing
escapes it.  The result type Except String α separates an escaping
exception (error) from a returned value (ok). -/

/-- Outcome of the connection attempt of a tool: the broker raised, or a
session is available whose payload describes the rest of the call. -/
inductive ConnAttempt (α : Type)
  | fail (msg : String)
  | ok (session : α)
  deriving DecidableEq, Repr

/-- The exception escaping from an unconditional conn.close() in a finally
clause when the connection attempt raised and conn was never bound. -/
def unboundConn : String :=
  "UnboundLocalError: cannot access local variable \x27conn\x27 where it is not associated with a value"

/-- Embedding of inspect_schema from src/server.py.  The session payload is
the outcome of the schema query: an error message, or the fetched
(table_name, column_name, data_type) rows pre-rendered as repr strings. -/
def inspect_schema (conn : ConnAttempt (Except String (List String))) :
    Except String String :=
  match conn with
  | .fail _msg => .error unboundConn
  | .ok (.error e) => .ok ("Error: " ++ e)
  | .ok (.ok rows) => .ok (pyStr rows)

/-- Embedding of track_activity from src/server.py.  The session payload is
the outcome of the fixed orders query: an error message, or the fetched
rows pre-rendered as repr strings. -/
def track_activity (conn : ConnAttempt (Except String (List String))) :
    Except String String :=
  match conn with
  | .fail _msg => .error unboundConn
  | .ok (.error e) => .ok ("Error: " ++ e)
  | .ok (.ok rows) => .ok (pyStr rows)

/-- Outcome of one execute_sql invocation over a database in state σ: the
connection attempt raised, the statement raised, the statement produced a
result set (with the state the transaction would reach if committed), or it
completed without a result set. -/
inductive ExecOutcome (σ : Type)
  | connFail (msg : String)
  | queryFail (msg : String)
  | resultSet (rows : List String) (pending : σ)
  | command (pending : σ)

/-- Embedding of execute_sql from src/server.py.  The value is the returned
string paired with the database state after the connection closes: a
statement with a result set returns the serialized rows before any commit,
so closing rolls the transaction back to the initial state; a statement
without a result set is committed; an error is caught and returned as the
tagged string.  The guarded finally clause never raises, so every branch is
ok. -/
def execute_sql {σ : Type} (init : σ) (o : ExecOutcome σ) :
    Except String (String × σ) :=
  match o with
  | .connFail msg => .ok ("SQL Error: " ++ msg ++ ". Check schema and try again.", init)
  | .queryFail msg => .ok ("SQL Error: " ++ msg ++ ". Check schema and try again.", init)
  | .resultSet rows _pending => .ok (pyStr rows, init)
  | .command pending => .ok ("Operation successful.", pending)

/-- Result of clone_product_by_name. -/
inductive CloneOut
  | notFound (msg : String)
  | cloned (msg : String)
  deriving DecidableEq, Repr

/-- The source-product lookup of clone_product_by_name: the first row of the
products table whose name equals source_name (the LIMIT 1 fetch). -/
def productMatch (products : List Product) (source_name : String) : Option Product :=
  (products.filter fun p => decide (p.name = source_name)).head?

/-- Embedding of clone_product_by_name from src/server.py, returning the
tool result and the products table after the call.  next_id models the
value generated for the omitted identity column.  When no source row
matches, the function returns before any INSERT and the close of the
uncommitted transaction leaves the table unchanged; otherwise the new row
is inserted with the copied price and stock and committed. -/
def clone_product_by_name (products : List Product) (source_name new_name : String)
    (next_id : Nat) : CloneOut × List Product :=
  match productMatch products source_name with
  | none =>
      (.notFound ("Error: Source product \x27" ++ source_name ++ "\x27 not found."), products)
  | some src =>
      (.cloned ("Successfully added \x27" ++ new_name ++ "\x27 (ID: " ++ toString next_id ++
        ") with Price: " ++ toString src.price ++ " and Stock: " ++ toString src.stock ++
        " (copied from \x27" ++ source_name ++ "\x27)."),
       products ++ [{ id := next_id, name := new_name, price := src.price, stock := src.stock }])

/-! ## Concrete database states used as test inputs -/

/-- A staff_activity_trace row with fixed table and details fields. -/
def mkStaff (mid sid name role atype : String) (ts : Nat) : StaffAction :=
  { manager_id := mid, staff_id := sid, staff_name := name, staff_role := role,
    action_type := atype, table_affected := "orders", details := "row change",
    action_timestamp := ts }

/-- A trace seeding the volume-spike scenario of the spec at clock 691200
(start of day 8): 14 actions by bob on day 6 and 6 actions by alice in the
trailing hour of day 7, giving a 7-day daily average of 10 and an hourly
count of 6 for alice. -/
def traceSpike : List StaffAction :=
  ((List.range 14).map fun k => mkStaff "M" "7" "bob" "Clerk" "UPDATE" (518400 + 60 * k)) ++
  ((List.range 6).map fun k => mkStaff "M" "9" "alice" "Clerk" "DELETE" (687660 + 60 * k))

/-- A trace with a single after-hours action: carol acts at 02:20 of day 7,
ten minutes before the clock reading 613800 (02:30). -/
def traceNight : List StaffAction :=
  [mkStaff "N" "3" "carol" "Admin" "DELETE" 613200]

/-- Six Admin GRANT actions of one manager, enough to cross the High
alert threshold. -/
def traceAdmin6 : List StaffAction :=
  (List.range 6).map fun k => mkStaff "A" (toString k) "root" "Admin" "GRANT" (100 + k)

/-- A products table with two rows sharing one name, to exhibit the
first-match rule of the clone tool. -/
def productsDemo : List Product :=
  [{ id := 1, name := "Desk", price := 10, stock := 5 },
   { id := 2, name := "Desk", price := 99, stock := 7 }]

/-- A single fetched size row of exactly 500 MB, the capacity constant. -/
def sizeRowAtLimit : SizeRow := { relname := "orders", size_mb := 500, row_count := 10 }

/-- One activity-feed row of manager A at time 50. -/
def feedRowA : FeedRow :=
  { manager_id := "A", activity_type := "TRANSACTION", compliance_check := true,
    created_at := 50 }

/-- A one-row activity feed for manager A. -/
def feedOne : List FeedRow := [feedRowA]

/-! ## Helper lemmas -/

theorem bool_and_left {a b : Bool} (h : (a && b) = true) : a = true := by
  cases a <;> simp_all

theorem filter_of_filter_superset {α : Type} (P M : α → Bool) (l : List α)
    (h : ∀ a, P a = true → M a = true) :
    (l.filter M).filter P = l.filter P := by
  induction l with
  | nil => rfl
  | cons a l ih =>
      cases hP : P a with
      | true =>
          have hM := h a hP
          simp [List.filter_cons, hM, hP, ih]
      | false =>
          cases hM : M a with
          | true => simp [List.filter_cons, hM, hP, ih]
          | false => simp [List.filter_cons, hM, hP, ih]

theorem length_insertDesc {α β : Type} [LinearOrder β] (key : α → β) (x : α)
    (l : List α) : (sortDescBy.insertDesc key x l).length = l.length + 1 := by
  induction l with
  | nil => rfl
  | cons y ys ih =>
      by_cases h : key y ≤ key x
      · simp [sortDescBy.insertDesc, h]
      · simp [sortDescBy.insertDesc, h, ih]

theorem length_sortDescBy {α β : Type} [LinearOrder β] (key : α → β)
    (l : List α) : (sortDescBy key l).length = l.length := by
  induction l with
  | nil => rfl
  | cons x xs ih => simp [sortDescBy, length_insertDesc, ih]

theorem mem_activityRows (feed : List FeedRow) (mid : String) (today : Nat) :
    ∀ r ∈ activityRows feed mid today, r.manager_id = mid := by
  intro r hr
  exact (of_decide_eq_true (List.mem_filter.mp hr).2).1

theorem mem_recentFetched (trace : List TraceRow) (mid : String) (lim : Nat)
    (category : Option String) :
    ∀ r ∈ recentFetched trace mid lim category, r.manager_id = mid := by
  intro r hr
  have h1 := (mem_sortDescBy _ r _).mp (List.take_subset _ _ hr)
  exact of_decide_eq_true (bool_and_left (List.mem_filter.mp h1).2)

theorem mem_userActivityFetched (trace : List StaffAction) (mid staff : String)
    (days_back today : Nat) :
    ∀ r ∈ userActivityFetched trace mid staff days_back today, r.manager_id = mid := by
  intro r hr
  have h1 := (mem_sortDescBy _ r _).mp hr
  exact of_decide_eq_true (bool_and_left (bool_and_left (List.mem_filter.mp h1).2))

theorem mem_dataModFetched (logs : List AuditLog) (mid : String)
    (table_name action_type : Option String) (lim : Nat) :
    ∀ r ∈ dataModFetched logs mid table_name action_type lim, r.manager_id = mid := by
  intro r hr
  have h1 := (mem_sortDescBy _ r _).mp (List.take_subset _ _ hr)
  exact of_decide_eq_true (bool_and_left (bool_and_left (List.mem_filter.mp h1).2))

theorem mem_failedOpFetched (logs : List ErrorLog) (mid : String) (lim : Nat) :
    ∀ r ∈ failedOpFetched logs mid lim, r.manager_id = mid := by
  intro r hr
  have h1 := (mem_sortDescBy _ r _).mp (List.take_subset _ _ hr)
  exact of_decide_eq_true (List.mem_filter.mp h1).2

theorem mem_privilegedFetched (trace : List StaffAction) (mid : String)
    (timeframe_days today : Nat) :
    ∀ r ∈ privilegedFetched trace mid timeframe_days today, r.manager_id = mid := by
  intro r hr
  have h1 := (mem_sortDescBy _ r _).mp hr
  exact (of_decide_eq_true (List.mem_filter.mp h1).2).1

theorem mem_detectRows7 (trace : List StaffAction) (mid : String) (now : Nat) :
    ∀ r ∈ detectRows7 trace mid now, r.manager_id = mid := by
  intro r hr
  exact (of_decide_eq_true (List.mem_filter.mp hr).2).1

theorem mem_detectRows1h (trace : List StaffAction) (mid : String) (now : Nat) :
    ∀ r ∈ detectRows1h trace mid now, r.manager_id = mid := by
  intro r hr
  exact (of_decide_eq_true (List.mem_filter.mp hr).2).1

theorem mem_detectLate (trace : List StaffAction) (mid : String) (now : Nat) :
    ∀ r ∈ detectLate trace mid now, r.manager_id = mid := by
  intro r hr
  exact (of_decide_eq_true (List.mem_filter.mp hr).2).1

theorem activityRows_restrict (feed : List FeedRow) (mid : String) (today : Nat) :
    activityRows (feed.filter fun r => decide (r.manager_id = mid)) mid today =
      activityRows feed mid today :=
  filter_of_filter_superset _ _ _
    (fun _ ha => decide_eq_true (of_decide_eq_true ha).1)

theorem recentRows_restrict (trace : List TraceRow) (mid : String)
    (category : Option String) :
    recentRows (trace.filter fun r => decide (r.manager_id = mid)) mid category =
      recentRows trace mid category :=
  filter_of_filter_superset _ _ _
    (fun _ ha => bool_and_left ha)

theorem userActivityRows_restrict (trace : List StaffAction) (mid staff : String)
    (days_back today : Nat) :
    userActivityRows (trace.filter fun r => decide (r.manager_id = mid)) mid staff days_back today =
      userActivityRows trace mid staff days_back today :=
  filter_of_filter_superset _ _ _
    (fun _ ha => bool_and_left (bool_and_left ha))

theorem dataModRows_restrict (logs : List AuditLog) (mid : String)
    (table_name action_type : Option String) :
    dataModRows (logs.filter fun r => decide (r.manager_id = mid)) mid table_name action_type =
      dataModRows logs mid table_name action_type :=
  filter_of_filter_superset _ _ _
    (fun _ ha => bool_and_left (bool_and_left ha))

theorem failedOpRows_restrict (logs : List ErrorLog) (mid : String) :
    failedOpRows (logs.filter fun r => decide (r.manager_id = mid)) mid =
      failedOpRows logs mid :=
  filter_of_filter_superset _ _ _ (fun _ ha => ha)

theorem privilegedRows_restrict (trace : List StaffAction) (mid : String)
    (timeframe_days today : Nat) :
    privilegedRows (trace.filter fun r => decide (r.manager_id = mid)) mid timeframe_days today =
      privilegedRows trace mid timeframe_days today :=
  filter_of_filter_superset _ _ _
    (fun _ ha => decide_eq_true (of_decide_eq_true ha).1)

theorem detectRows7_restrict (trace : List StaffAction) (mid : String) (now : Nat) :
    detectRows7 (trace.filter fun r => decide (r.manager_id = mid)) mid now =
      detectRows7 trace mid now :=
  filter_of_filter_superset _ _ _
    (fun _ ha => decide_eq_true (of_decide_eq_true ha).1)

theorem detectRows1h_restrict (trace : List StaffAction) (mid : String) (now : Nat) :
    detectRows1h (trace.filter fun r => decide (r.manager_id = mid)) mid now =
      detectRows1h trace mid now :=
  filter_of_filter_superset _ _ _
    (fun _ ha => decide_eq_true (of_decide_eq_true ha).1)

theorem detectLate_restrict (trace : List StaffAction) (mid : String) (now : Nat) :
    detectLate (trace.filter fun r => decide (r.manager_id = mid)) mid now =
      detectLate trace mid now :=
  filter_of_filter_superset _ _ _
    (fun _ ha => decide_eq_true (of_decide_eq_true ha).1)

theorem get_activity_summary_restrict (feed : List FeedRow) (mid timeframe : String)
    (today : Nat) :
    get_activity_summary (feed.filter fun r => decide (r.manager_id = mid)) mid timeframe today =
      get_activity_summary feed mid timeframe today := by
  unfold get_activity_summary activityGroups
  rw [activityRows_restrict]

theorem get_recent_activity_restrict (trace : List TraceRow) (mid : String)
    (lim : Nat) (category : Option String) :
    get_recent_activity (trace.filter fun r => decide (r.manager_id = mid)) mid lim category =
      get_recent_activity trace mid lim category := by
  unfold get_recent_activity recentFetched
  rw [recentRows_restrict]

theorem get_user_activity_restrict (trace : List StaffAction) (mid staff : String)
    (days_back today : Nat) :
    get_user_activity (trace.filter fun r => decide (r.manager_id = mid)) mid staff days_back today =
      get_user_activity trace mid staff days_back today := by
  unfold get_user_activity userActivityFetched
  rw [userActivityRows_restrict]

theorem get_data_modifications_restrict (logs : List AuditLog) (mid : String)
    (table_name action_type : Option String) (lim : Nat) :
    get_data_modifications (logs.filter fun r => decide (r.manager_id = mid)) mid table_name action_type lim =
      get_data_modifications logs mid table_name action_type lim := by
  unfold get_data_modifications dataModFetched
  rw [dataModRows_restrict]

theorem get_failed_operations_restrict (logs : List ErrorLog) (mid : String) (lim : Nat) :
    get_failed_operations (logs.filter fun r => decide (r.manager_id = mid)) mid lim =
      get_failed_operations logs mid lim := by
  unfold get_failed_operations failedOpFetched
  rw [failedOpRows_restrict]

theorem get_privileged_activity_restrict (trace : List StaffAction) (mid : String)
    (timeframe_days today : Nat) :
    get_privileged_activity (trace.filter fun r => decide (r.manager_id = mid)) mid timeframe_days today =
      get_privileged_activity trace mid timeframe_days today := by
  unfold get_privileged_activity privilegedFetched
  rw [privilegedRows_restrict]

theorem detect_anomalous_activity_restrict (trace : List StaffAction) (mid : String)
    (now : Nat) :
    detect_anomalous_activity (trace.filter fun r => decide (r.manager_id = mid)) mid now =
      detect_anomalous_activity trace mid now := by
  unfold detect_anomalous_activity avgDaily dailyCounts recentStats
  rw [detectRows7_restrict, detectRows1h_restrict, detectLate_restrict]

/-! ## Claims -/

/-- C1: every Tool Catalogue operation reading tenant-owned audit tables
(activity summary, recent activity, user activity, data modifications,
failed operations, privileged activity, anomaly detection) is
tenant-isolated: invoked with manager A, its result is unchanged when every
row of other managers is deleted from the underlying table, and every row
selected by its queries carries manager A, so no row of a manager B appears
in or influences the result. -/
theorem C1_tenant_isolation (mid : String) :
    (∀ (feed : List FeedRow) (timeframe : String) (today : Nat),
       get_activity_summary (feed.filter fun r => decide (r.manager_id = mid)) mid timeframe today =
         get_activity_summary feed mid timeframe today ∧
       ∀ r ∈ activityRows feed mid today, r.manager_id = mid) ∧
    (∀ (trace : List TraceRow) (lim : Nat) (category : Option String),
       get_recent_activity (trace.filter fun r => decide (r.manager_id = mid)) mid lim category =
         get_recent_activity trace mid lim category ∧
       ∀ r ∈ recentFetched trace mid lim category, r.manager_id = mid) ∧
    (∀ (trace : List StaffAction) (staff : String) (days_back today : Nat),
       get_user_activity (trace.filter fun r => decide (r.manager_id = mid)) mid staff days_back today =
         get_user_activity trace mid staff days_back today ∧
       ∀ r ∈ userActivityFetched trace mid staff days_back today, r.manager_id = mid) ∧
    (∀ (logs : List AuditLog) (table_name action_type : Option String) (lim : Nat),
       get_data_modifications (logs.filter fun r => decide (r.manager_id = mid)) mid table_name action_type lim =
         get_data_modifications logs mid table_name action_type lim ∧
       ∀ r ∈ dataModFetched logs mid table_name action_type lim, r.manager_id = mid) ∧
    (∀ (logs : List ErrorLog) (lim : Nat),
       get_failed_operations (logs.filter fun r => decide (r.manager_id = mid)) mid lim =
         get_failed_operations logs mid lim ∧
       ∀ r ∈ failedOpFetched logs mid lim, r.manager_id = mid) ∧
    (∀ (trace : List StaffAction) (timeframe_days today : Nat),
       get_privileged_activity (trace.filter fun r => decide (r.manager_id = mid)) mid timeframe_days today =
         get_privileged_activity trace mid timeframe_days today ∧
       ∀ r ∈ privilegedFetched trace mid timeframe_days today, r.manager_id = mid) ∧
    (∀ (trace : List StaffAction) (now : Nat),
       detect_anomalous_activity (trace.filter fun r => decide (r.manager_id = mid)) mid now =
         detect_anomalous_activity trace mid now ∧
       (∀ r ∈ detectRows7 trace mid now, r.manager_id = mid) ∧
       (∀ r ∈ detectRows1h trace mid now, r.manager_id = mid) ∧
       (∀ r ∈ detectLate trace mid now, r.manager_id = mid)) :=
  ⟨fun feed timeframe today =>
     ⟨get_activity_summary_restrict feed mid timeframe today, mem_activityRows feed mid today⟩,
   fun trace lim category =>
     ⟨get_recent_activity_restrict trace mid lim category, mem_recentFetched trace mid lim category⟩,
   fun trace staff days_back today =>
     ⟨get_user_activity_restrict trace mid staff days_back today,
      mem_userActivityFetched trace mid staff days_back today⟩,
   fun logs table_name action_type lim =>
     ⟨get_data_modifications_restrict logs mid table_name action_type lim,
      mem_dataModFetched logs mid table_name action_type lim⟩,
   fun logs lim =>
     ⟨get_failed_operations_restrict logs mid lim, mem_failedOpFetched logs mid lim⟩,
   fun trace timeframe_days today =>
     ⟨get_privileged_activity_restrict trace mid timeframe_days today,
      mem_privilegedFetched trace mid timeframe_days today⟩,
   fun trace now =>
     ⟨detect_anomalous_activity_restrict trace mid now,
      mem_detectRows7 trace mid now, mem_detectRows1h trace mid now,
      mem_detectLate trace mid now⟩⟩

/-- Witness for C1 at a concrete one-row feed of manager A. -/
theorem C1_witness :
    feedRowA ∈ activityRows feedOne "A" 0 ∧ feedRowA.manager_id = "A" :=
  ⟨by decide, ((C1_tenant_isolation "A").1 feedOne "daily" 0).2 feedRowA (by decide)⟩

/-- C2 fails on the code: at the seeded state with daily average 10 and an
hourly count of 6 for alice, the claim demands a VolumeSpike alert, but the
volume loop multiplies the Decimal average by the float 0.5, raising
TypeError, and the tool returns the caught-exception error string with no
alert at all. -/
theorem C2_code_bug_eval :
    avgDaily traceSpike "M" 691200 = .dec 10 ∧
    recentStats traceSpike "M" 691200 = [(6, "alice")] ∧
    detect_anomalous_activity traceSpike "M" 691200 =
      .errorText ("Anomaly Detection Error: unsupported operand type(s) for *: \x27decimal.Decimal\x27 and \x27float\x27") := by
  have hdc : dailyCounts traceSpike "M" 691200 = [14, 6] := by decide
  have hrs : recentStats traceSpike "M" 691200 = [(6, "alice")] := by decide
  have havg : avgDaily traceSpike "M" 691200 = .dec 10 := by
    simp only [avgDaily, hdc]
    norm_num
    exact fun h => absurd h (List.cons_ne_nil _ _)
  refine ⟨havg, hrs, ?_⟩
  unfold detect_anomalous_activity
  rw [havg, hrs]
  rfl

/-- C3 fails on the code: the single action of the seeded state happened at
hour 2 inside the trailing 24 hours and is selected by the timing query, so
the claim demands exactly one SuspiciousTiming alert; but the same action
lies in the trailing hour, the volume loop therefore raises TypeError on
the Decimal average before the timing query runs, and the tool returns the
error string with no alert. -/
theorem C3_code_bug_eval :
    detectLate traceNight "N" 613800 = traceNight ∧
    (traceNight.map fun r => r.action_timestamp / 3600 % 24) = [2] ∧
    detect_anomalous_activity traceNight "N" 613800 =
      .errorText ("Anomaly Detection Error: unsupported operand type(s) for *: \x27decimal.Decimal\x27 and \x27float\x27") := by
  have hdc : dailyCounts traceNight "N" 613800 = [1] := by decide
  have hrs : recentStats traceNight "N" 613800 = [(1, "carol")] := by decide
  have havg : avgDaily traceNight "N" 613800 = .dec 1 := by
    simp only [avgDaily, hdc]
    norm_num
  refine ⟨by decide, by decide, ?_⟩
  unfold detect_anomalous_activity
  rw [havg, hrs]
  rfl

/-- C4: execute_sql serializes and returns the rows of a statement that
produces a result set, commits and returns the fixed sentinel for a
statement that does not, converts any execution error into the tagged SQL
Error string, and returns on every branch (its guarded finally clause lets
no exception escape the tool boundary). -/
theorem C4_execute_sql_contract {σ : Type} (init : σ) :
    (∀ (rows : List String) (pending : σ),
       execute_sql init (.resultSet rows pending) = .ok (pyStr rows, init)) ∧
    (∀ pending : σ,
       execute_sql init (.command pending) = .ok ("Operation successful.", pending)) ∧
    (∀ msg, execute_sql init (.connFail msg) =
       .ok ("SQL Error: " ++ msg ++ ". Check schema and try again.", init)) ∧
    (∀ msg, execute_sql init (.queryFail msg) =
       .ok ("SQL Error: " ++ msg ++ ". Check schema and try again.", init)) ∧
    (∀ o : ExecOutcome σ, ∃ v, execute_sql init o = .ok v) := by
  refine ⟨fun _ _ => rfl, fun _ => rfl, fun _ => rfl, fun _ => rfl, fun o => ?_⟩
  cases o <;> exact ⟨_, rfl⟩

/-- C5 fails on the code: a query error after a successful connection is
caught and returned as the Error string, but when the connection attempt
itself raises, the local conn is never bound, the unconditional conn.close()
in the finally clause raises UnboundLocalError, and that exception escapes
the function, discarding the prepared Error return. -/
theorem C5_code_bug_eval :
    inspect_schema (.fail "connection refused") = .error unboundConn ∧
    (∀ msg, inspect_schema (.ok (.error msg)) = .ok ("Error: " ++ msg)) ∧
    unboundConn ≠ "Error: connection refused" :=
  ⟨rfl, fun _ => rfl, by decide⟩

/-- C10: execute_sql commits only when the statement produced no result set.
After a row-returning statement the connection closes without commit, so the
database stays in its initial state and the pending transaction state is
discarded; after a statement without a result set the pending state is
persisted. -/
theorem C10_commit_only_for_commands {σ : Type} (init : σ) :
    (∀ (rows : List String) (pending : σ),
       (execute_sql init (.resultSet rows pending)).map Prod.snd = .ok init) ∧
    (∀ pending : σ, (execute_sql init (.command pending)).map Prod.snd = .ok pending) ∧
    (∀ (rows : List String) (pending : σ), pending ≠ init →
       (execute_sql init (.resultSet rows pending)).map Prod.snd ≠ .ok pending) := by
  refine ⟨fun _ _ => rfl, fun _ => rfl, fun rows pending h hc => h ?_⟩
  simpa [execute_sql, Except.map] using hc.symm

/-- Witness for C10: with one pending row-returning modification over a
numeric state, the final state is the initial 0, not the pending 1. -/
theorem C10_witness :
    (1 : Nat) ≠ 0 ∧ (execute_sql (0 : Nat) (.resultSet ["r"] 1)).map Prod.snd ≠ .ok 1 :=
  ⟨by decide, (C10_commit_only_for_commands (0 : Nat)).2.2 ["r"] 1 (by decide)⟩

/-- C6: clone_product_by_name finds no source row exactly when no product
carries the source name; in that case it returns the explicit not-found
string and the products table is unchanged (it returns before any INSERT,
and the close of the uncommitted transaction persists nothing); with a
match it copies price and stock from the first matching row, appends one
new row with a generated identity, and reports that id and the copied
values in its message. -/
theorem C6_clone_product (products : List Product) (source_name new_name : String)
    (next_id : Nat) :
    (productMatch products source_name = none ↔ ∀ p ∈ products, p.name ≠ source_name) ∧
    (∀ src, productMatch products source_name = some src →
       src ∈ products ∧ src.name = source_name) ∧
    (productMatch products source_name = none →
       clone_product_by_name products source_name new_name next_id =
         (.notFound ("Error: Source product \x27" ++ source_name ++ "\x27 not found."),
          products)) ∧
    (∀ src, productMatch products source_name = some src →
       clone_product_by_name products source_name new_name next_id =
         (.cloned ("Successfully added \x27" ++ new_name ++ "\x27 (ID: " ++ toString next_id ++
            ") with Price: " ++ toString src.price ++ " and Stock: " ++ toString src.stock ++
            " (copied from \x27" ++ source_name ++ "\x27)."),
          products ++ [{ id := next_id, name := new_name, price := src.price, stock := src.stock }])) := by
  refine ⟨?_, ?_, ?_, ?_⟩
  · simp [productMatch, List.head?_eq_none_iff, List.filter_eq_nil_iff]
  · intro src h
    unfold productMatch at h
    cases hf : products.filter fun p => decide (p.name = source_name) with
    | nil => rw [hf] at h; cases h
    | cons a t =>
        rw [hf] at h
        simp only [List.head?_cons, Option.some.injEq] at h
        cases h
        have hmem : src ∈ products.filter fun p => decide (p.name = source_name) := by
          rw [hf]; exact List.mem_cons_self _ _
        have hma := List.mem_filter.mp hmem
        exact ⟨hma.1, of_decide_eq_true hma.2⟩
  · intro h
    unfold clone_product_by_name
    rw [h]
  · intro src h
    unfold clone_product_by_name
    rw [h]

/-- Witness for C6 on the two-row demo table: a missing source name changes
nothing, and an existing source name clones the first of the two matching
rows. -/
theorem C6_witness :
    (productMatch productsDemo "Chair" = none ∧
     clone_product_by_name productsDemo "Chair" "Stool" 3 =
       (.notFound ("Error: Source product \x27" ++ "Chair" ++ "\x27 not found."),
        productsDemo)) ∧
    (productMatch productsDemo "Desk" =
       some { id := 1, name := "Desk", price := 10, stock := 5 } ∧
     clone_product_by_name productsDemo "Desk" "Desk Copy" 3 =
       (.cloned ("Successfully added \x27" ++ "Desk Copy" ++ "\x27 (ID: " ++ toString 3 ++
          ") with Price: " ++ toString (10 : Int) ++ " and Stock: " ++ toString (5 : Int) ++
          " (copied from \x27" ++ "Desk" ++ "\x27)."),
        productsDemo ++ [{ id := 3, name := "Desk Copy", price := 10, stock := 5 }])) :=
  ⟨⟨by decide, (C6_clone_product productsDemo "Chair" "Stool" 3).2.2.1 (by decide)⟩,
   ⟨by decide, (C6_clone_product productsDemo "Desk" "Desk Copy" 3).2.2.2
      { id := 1, name := "Desk", price := 10, stock := 5 } (by decide)⟩⟩

/-- C7: the rows get_privileged_activity selects are exactly the manager
rows of the trailing window whose role is Admin or whose action is GRANT,
REVOKE, ALTER or DROP, and a returned report carries alert_level High
exactly when more than five rows matched, Normal otherwise. -/
theorem C7_privileged (trace : List StaffAction) (mid : String)
    (timeframe_days today : Nat) :
    (∀ r, r ∈ privilegedRows trace mid timeframe_days today ↔
       (r ∈ trace ∧ r.manager_id = mid ∧
        (r.staff_role = "Admin" ∨ r.action_type ∈ ["GRANT", "REVOKE", "ALTER", "DROP"]) ∧
        r.action_timestamp ≥ today - timeframe_days * 86400)) ∧
    (∀ scope level logs,
       get_privileged_activity trace mid timeframe_days today = .report scope level logs →
         logs.length = (privilegedRows trace mid timeframe_days today).length ∧
         (level = "High" ↔ 5 < (privilegedRows trace mid timeframe_days today).length) ∧
         (level = "Normal" ↔ (privilegedRows trace mid timeframe_days today).length ≤ 5)) := by
  constructor
  · intro r
    simp [privilegedRows, List.mem_filter]
  · intro scope level logs h
    simp only [get_privileged_activity] at h
    split at h
    · cases h
    · rename_i hne
      simp only [PrivOut.report.injEq] at h
      obtain ⟨-, hlevel, hlogs⟩ := h
      have hlen : (privilegedFetched trace mid timeframe_days today).length =
          (privilegedRows trace mid timeframe_days today).length :=
        length_sortDescBy _ _
      refine ⟨by rw [← hlogs, hlen], ?_, ?_⟩
      · rw [← hlevel, hlen]
        by_cases h5 : 5 < (privilegedRows trace mid timeframe_days today).length
        · simp [h5]
        · simp [h5]
      · rw [← hlevel, hlen]
        by_cases h5 : 5 < (privilegedRows trace mid timeframe_days today).length
        · simp [h5]
        · simp [h5]
          omega

/-- Witness for C7: six Admin GRANT rows of one manager produce a report
whose alert level is High, matching the more-than-five characterization. -/
theorem C7_witness :
    ("High" = "High" ↔ 5 < (privilegedRows traceAdmin6 "A" 30 0).length) ∧
    ("Normal" = "Normal" ↔ (privilegedRows (traceAdmin6.take 3) "A" 30 0).length ≤ 5) :=
  ⟨(((C7_privileged traceAdmin6 "A" 30 0).2 "30 Days" "High"
      (privilegedFetched traceAdmin6 "A" 30 0) (by decide)).2).1,
   (((C7_privileged (traceAdmin6.take 3) "A" 30 0).2 "30 Days" "Normal"
      (privilegedFetched (traceAdmin6.take 3) "A" 30 0) (by decide)).2).2⟩

/-- C8 counterexample: track_activity is a Tool Catalogue operation, yet on
a successful query over an empty orders table it returns exactly the
serialized empty result set, the same string shape its success branch
produces for any row set, so its empty-result return is a structural empty
payload and not a distinct no-records sentinel (inspect_schema and
execute_sql share this branch shape). -/
theorem C8_counterexample :
    track_activity (.ok (.ok [])) = .ok (pyStr []) ∧ pyStr [] = "[]" :=
  ⟨rfl, rfl⟩

/-- C8 amended: every manager-scoped analytic and audit tool of the
catalogue (activity summary, recent activity, user activity, data
modifications, active connections, slow queries, failed operations,
privileged activity, growth trends) returns its explicit no-records
sentinel string when its query yields an empty result set; inspect_schema,
track_activity and execute_sql instead return the bare serialization of the
empty result set. -/
theorem C8_empty_sentinels :
    (∀ (feed : List FeedRow) (mid timeframe : String) (today : Nat),
       activityGroups feed mid today = [] →
       get_activity_summary feed mid timeframe today =
         .noActivity ("No activity recorded today for Manager ID: " ++ mid)) ∧
    (∀ (trace : List TraceRow) (mid : String) (lim : Nat) (category : Option String),
       recentFetched trace mid lim category = [] →
       get_recent_activity trace mid lim category =
         .noRecords ("No recent activity found for Manager " ++ mid ++ ".")) ∧
    (∀ (trace : List StaffAction) (mid staff : String) (days_back today : Nat),
       userActivityFetched trace mid staff days_back today = [] →
       get_user_activity trace mid staff days_back today =
         .noRecords ("No activity records found for \x27" ++ staff ++ "\x27 in the last " ++
           toString days_back ++ " days.")) ∧
    (∀ (logs : List AuditLog) (mid : String) (tn act : Option String) (lim : Nat),
       dataModFetched logs mid tn act lim = [] →
       get_data_modifications logs mid tn act lim =
         .noRecords "No matching data modifications found.") ∧
    (∀ (stats : List PgStatRow) (dbname : String),
       activeConnRows stats dbname = [] →
       get_active_connections stats dbname =
         .noConnections "No active connections detected (highly unusual).") ∧
    (∀ (stmts : List StatStmt) (lim : Nat),
       slowQueryFetched stmts lim = [] →
       get_slow_queries stmts lim =
         .noData "No performance data available. (Ensure pg_stat_statements is enabled)") ∧
    (∀ (logs : List ErrorLog) (mid : String) (lim : Nat),
       failedOpFetched logs mid lim = [] →
       get_failed_operations logs mid lim =
         .noRecords "Good news: No failed operations recorded recently.") ∧
    (∀ (trace : List StaffAction) (mid : String) (timeframe_days today : Nat),
       privilegedFetched trace mid timeframe_days today = [] →
       get_privileged_activity trace mid timeframe_days today =
         .noRecords ("No privileged activities detected in the last " ++
           toString timeframe_days ++ " days.")) ∧
    (∀ rows : List SizeRow, rows = [] →
       get_growth_trends rows = .noData "No table data found.") := by
  refine ⟨?_, ?_, ?_, ?_, ?_, ?_, ?_, ?_, ?_⟩
  · intro feed mid timeframe today h
    simp [get_activity_summary, h]
  · intro trace mid lim category h
    simp [get_recent_activity, h]
  · intro trace mid staff days_back today h
    simp [get_user_activity, h]
  · intro logs mid tn act lim h
    simp [get_data_modifications, h]
  · intro stats dbname h
    simp [get_active_connections, h]
  · intro stmts lim h
    simp [get_slow_queries, h]
  · intro logs mid lim h
    simp [get_failed_operations, h]
  · intro trace mid timeframe_days today h
    simp [get_privileged_activity, h]
  · intro rows h
    simp [get_growth_trends, h]

/-- Witness for C8 on empty tables: each manager-scoped tool returns its
sentinel. -/
theorem C8_witness :
    get_activity_summary [] "A" "daily" 0 =
      .noActivity ("No activity recorded today for Manager ID: " ++ "A") ∧
    get_recent_activity [] "A" 10 none =
      .noRecords ("No recent activity found for Manager " ++ "A" ++ ".") ∧
    get_user_activity [] "A" "bob" 7 0 =
      .noRecords ("No activity records found for \x27" ++ "bob" ++ "\x27 in the last " ++
        toString 7 ++ " days.") ∧
    get_data_modifications [] "A" none none 20 =
      .noRecords "No matching data modifications found." ∧
    get_active_connections [] "shopdb" =
      .noConnections "No active connections detected (highly unusual)." ∧
    get_slow_queries [] 5 =
      .noData "No performance data available. (Ensure pg_stat_statements is enabled)" ∧
    get_failed_operations [] "A" 10 =
      .noRecords "Good news: No failed operations recorded recently." ∧
    get_privileged_activity [] "A" 30 0 =
      .noRecords ("No privileged activities detected in the last " ++
        toString 30 ++ " days.") ∧
    get_growth_trends [] = .noData "No table data found." :=
  ⟨C8_empty_sentinels.1 [] "A" "daily" 0 rfl,
   C8_empty_sentinels.2.1 [] "A" 10 none rfl,
   C8_empty_sentinels.2.2.1 [] "A" "bob" 7 0 rfl,
   C8_empty_sentinels.2.2.2.1 [] "A" none none 20 rfl,
   C8_empty_sentinels.2.2.2.2.1 [] "shopdb" rfl,
   C8_empty_sentinels.2.2.2.2.2.1 [] 5 rfl,
   C8_empty_sentinels.2.2.2.2.2.2.1 [] "A" 10 rfl,
   C8_empty_sentinels.2.2.2.2.2.2.2.1 [] "A" 30 0 rfl,
   C8_empty_sentinels.2.2.2.2.2.2.2.2 [] rfl⟩

/-- C9 counterexample: with a single fetched table of exactly 500 MB the
code returns the near-limit warning, although the total does not exceed the
500 MB constant, so the claimed boundary (warning exactly when the total
exceeds the constant) fails at equality. -/
theorem C9_counterexample :
    get_growth_trends [sizeRowAtLimit] = .report 500 .warnNearLimit [sizeRowAtLimit] ∧
    ¬ ((500 : ℚ) > 500) := by
  constructor
  · simp only [get_growth_trends, sizeRowAtLimit]
    norm_num [pyRound2, pyRound]
  · norm_num

/-- C9 amended: get_growth_trends reports the rounded total of the fetched
size column; its storage_limit_utilization field is the half-even rounded
percentage round((total / 500) * 100, 1) whenever the total is strictly
below 500 MB, and the near-limit warning exactly when the total is greater
than or equal to the 500 MB constant. -/
theorem C9_growth_trends (rows : List SizeRow) (h : rows ≠ []) :
    (∃ total util tables, get_growth_trends rows = .report total util tables) ∧
    (∀ total util tables, get_growth_trends rows = .report total util tables →
       total = pyRound2 ((rows.map fun r => r.size_mb).sum) ∧
       tables = rows ∧
       (util = .warnNearLimit ↔ (rows.map fun r => r.size_mb).sum ≥ 500) ∧
       ((rows.map fun r => r.size_mb).sum < 500 →
          util = .percent (pyRound1 ((rows.map fun r => r.size_mb).sum / 500 * 100)))) := by
  simp only [get_growth_trends, if_neg h]
  constructor
  · exact ⟨_, _, _, rfl⟩
  · intro total util tables hEq
    simp only [GrowthOut.report.injEq] at hEq
    obtain ⟨htot, hutil, htab⟩ := hEq
    refine ⟨htot.symm, htab.symm, ?_, ?_⟩
    · rw [← hutil]
      by_cases hlt : (rows.map fun r => r.size_mb).sum < 500
      · simp only [if_pos hlt]
        constructor
        · intro hc; cases hc
        · intro hge; exact absurd hlt (not_lt.mpr hge)
      · simp only [if_neg hlt]
        simp [le_of_not_lt hlt]
    · intro hlt
      rw [← hutil, if_pos hlt]

/-- Witness for C9 at a 100 MB single-table state: the report exists and
its utilization is the 20 percent branch. -/
theorem C9_witness :
    ([({ relname := "t", size_mb := 100, row_count := 1 } : SizeRow)] ≠ []) ∧
    (∃ total util tables,
       get_growth_trends [({ relname := "t", size_mb := 100, row_count := 1 } : SizeRow)] =
         .report total util tables) :=
  ⟨by simp,
   (C9_growth_trends [{ relname := "t", size_mb := 100, row_count := 1 }] (by simp)).1⟩

end EcomOps
